import Mathlib

/-!
Verification of the configuration engine of the NeuralNetworkTraining repository.

The Python modules embedded here are:
  * `Code/Utilities/extract_JSON_schema_defaults.py` (function `main`),
  * `Code/Utilities/Configuration.py` (methods `extract_schema_defaults` and
    `set_from_json`),
  * `Code/Utilities/json_validator.py` (class `Validator` and its
    `_validate_*` rules).

JSON values loaded by Python's `json` module are modelled by `JValue`:
Python `None` (JSON `null`), `bool`, `int`, `str`, `list` and `dict` (with
insertion-ordered keys, as in Python 3.7+).  JSON floats do not occur in any
of the configuration documents or schemas considered here and are not
modelled; the `number` type of the validator therefore coincides with `int`
values in this embedding.

Python raising an exception is modelled with `Except PyErr`; recursive
functions whose Python originals recurse on rewritten arguments (and are
bounded in Python only by the interpreter's recursion limit) take an explicit
fuel argument, and exhausting the fuel is modelled as Python's
`RecursionError`.

In-place dictionary mutation is modelled by threading the mutated value
through the computation: the extraction functions repeatedly assign into
`schema["properties"]`, so they return the final (mutated) schema alongside
their result.  Object aliasing is not tracked: a mutation is visible through
the value that is threaded, not through other references to the same Python
object.  None of the concrete inputs used below can observe the difference.
-/

inductive JValue : Type where
  | null : JValue
  | bool : Bool → JValue
  | int : Int → JValue
  | str : String → JValue
  | arr : List JValue → JValue
  | obj : List (String × JValue) → JValue

mutual

/-- Python `==` on JSON values (structural equality; the numeric
`True == 1` cross-type coercion of Python is not modelled, no claim below
compares a `bool` with an `int`). -/
def beqJ : JValue → JValue → Bool
  | .null, .null => true
  | .bool a, .bool b => a == b
  | .int a, .int b => a == b
  | .str a, .str b => a == b
  | .arr xs, .arr ys => beqArr xs ys
  | .obj xs, .obj ys => beqObj xs ys
  | _, _ => false

def beqArr : List JValue → List JValue → Bool
  | [], [] => true
  | x :: xs, y :: ys => beqJ x y && beqArr xs ys
  | _, _ => false

def beqObj : List (String × JValue) → List (String × JValue) → Bool
  | [], [] => true
  | (k, v) :: xs, (k2, v2) :: ys => k == k2 && beqJ v v2 && beqObj xs ys
  | _, _ => false

end

/-- Python truthiness of a JSON value: `None`, `False`, `0`, `""`, `[]` and
`{}` are falsy, everything else is truthy. -/
def truthy : JValue → Bool
  | .null => false
  | .bool b => b
  | .int n => n != 0
  | .str s => s != ""
  | .arr xs => !xs.isEmpty
  | .obj kvs => !kvs.isEmpty

/-- Lookup of a key in a Python dict (first matching entry). -/
def objGet : List (String × JValue) → String → Option JValue
  | [], _ => none
  | (k, v) :: rest, key => if k = key then some v else objGet rest key

/-- Python dict item assignment `d[key] = v`: an existing key keeps its
position, a new key is appended (insertion order). -/
def objSet : List (String × JValue) → String → JValue → List (String × JValue)
  | [], key, v => [(key, v)]
  | (k, w) :: rest, key, v =>
      if k = key then (k, v) :: rest else (k, w) :: objSet rest key v

/-- Python `v.get(key, d)`: `none` models the `AttributeError` raised when
`v` is not a dict. -/
def dictGetD (v : JValue) (key : String) (d : JValue) : Option JValue :=
  match v with
  | .obj kvs => some ((objGet kvs key).getD d)
  | _ => none

/-- `v.get(key, d)` on a value already known to be a dict (returns `d` when
`v` is not a dict; that case is unreachable at every use site). -/
def propGetD (v : JValue) (key : String) (d : JValue) : JValue :=
  match v with
  | .obj kvs => (objGet kvs key).getD d
  | _ => d

/-- Python `x is not None`. -/
def isNotNone : JValue → Bool
  | .null => false
  | _ => true

/-- Modelled Python exceptions (plus `recursionLimit` for fuel exhaustion,
standing for Python's `RecursionError`). -/
inductive PyErr : Type where
  | typeError : PyErr
  | attributeError : PyErr
  | unknownType : PyErr
  | indexError : PyErr
  | zeroDivisionError : PyErr
  | recursionLimit : PyErr
  deriving DecidableEq

/-- Python `str()` / `repr()` of a JSON value (fuel-bounded recursion over
nested containers; `pyReprF` quotes strings, as inside containers). -/
def pyReprF : Nat → JValue → String
  | 0, _ => ""
  | _ + 1, .null => "None"
  | _ + 1, .bool true => "True"
  | _ + 1, .bool false => "False"
  | _ + 1, .int n => toString n
  | _ + 1, .str s => "\x27" ++ s ++ "\x27"
  | f + 1, .arr xs => "[" ++ String.intercalate ", " (xs.map (pyReprF f)) ++ "]"
  | f + 1, .obj kvs =>
      "\x7b" ++
        String.intercalate ", "
          (kvs.map fun kv => "\x27" ++ kv.1 ++ "\x27: " ++ pyReprF f kv.2) ++
        "\x7d"

/-- Python `str()`: like `repr` but without quotes around a top-level
string. -/
def pyStr (v : JValue) : String :=
  match v with
  | .str s => s
  | _ => pyReprF 1000 v

/-! ## Reference resolution

`extract_JSON_schema_defaults.py`, lines 111-112 (and identically
`Configuration.py`, lines 146-147):

    defPath = schemaProps[i].get("$ref").split("/")[1:]
    subschema["properties"] = reduce(lambda d, key: d.get(key) if d else None, defPath, schema)

both wrapped in `try: ... except AttributeError: subschema["properties"] = schemaProps[i]`.
-/

/-- The `reduce` walk over the `$ref` path segments.  `none` models the
`AttributeError` raised when a truthy non-dict is reached (caught by the
surrounding `except`); a falsy intermediate value propagates `None` through
the remaining segments. -/
def resolveRef : List String → JValue → Option JValue
  | [], d => some d
  | key :: rest, d =>
      if truthy d then
        match d with
        | .obj kvs => resolveRef rest ((objGet kvs key).getD .null)
        | _ => none
      else resolveRef rest .null

/-- Worker for `splitSlash`: accumulates the current piece in reverse. -/
def splitSlashGo : List Char → List Char → List String
  | [], acc => [String.mk acc.reverse]
  | ch :: rest, acc =>
      if ch = '/' then String.mk acc.reverse :: splitSlashGo rest []
      else splitSlashGo rest (ch :: acc)

/-- Python `s.split("/")` (single-character separator, as in the source):
splitting on every occurrence, with empty pieces preserved. -/
def splitSlash (s : String) : List String :=
  splitSlashGo s.data []

/-- The whole `try`/`except AttributeError` block computing the value that is
assigned to `schema["properties"]` for the property value `v`: if `v` is a
dict with a string-valued `"$ref"` key, the referenced node (the path is the
ref string split on `"/"` with the leading `"#"` segment dropped); otherwise
the `AttributeError` from `.get`/`.split` is caught and `v` itself is used. -/
def refTarget (v : JValue) (schema : JValue) : JValue :=
  match v with
  | .obj kvs =>
      match objGet kvs "$ref" with
      | some (.str s) =>
          match resolveRef ((splitSlash s).drop 1) schema with
          | some r => r
          | none => v
      | _ => v
  | _ => v

/-! ## Default extraction, `extract_JSON_schema_defaults.py` (`main`)

The function reads `schemaProps = schema.get("properties", {})`, determines
`propsType = schemaProps.get("type", "object")` (an `AttributeError`, when
`schemaProps` is not a dict, is caught and leaves `propsType = None`), and
then branches on the type.  In the `object` branch it iterates over the
entries of `schemaProps`, for each entry assigns the (ref-resolved) value
into `schema["properties"]` — mutating the schema in place — and recurses on
the whole mutated schema.  The loop below iterates over the entries as
captured at loop entry, which is what the Python loop observes (property
values are not themselves mutated by this function). -/

mutual

def extractDefaults : Nat → JValue → Except PyErr ((JValue × Bool) × JValue)
  | 0, _ => .error .recursionLimit
  | fuel + 1, schema => do
      let some schemaProps := dictGetD schema "properties" (.obj [])
        | .error .attributeError
      let propsType : JValue :=
        match schemaProps with
        | .obj kvs => (objGet kvs "type").getD (.str "object")
        | _ => .null
      match propsType with
      | .str "array" =>
          .ok ((propGetD schemaProps "default" (.arr []), true), schema)
      | .str "object" =>
          match schemaProps with
          | .obj pkvs =>
              extractDefaultsLoop fuel pkvs (propGetD schemaProps "default" (.obj [])) schema
          | _ => .error .attributeError
      | .str "boolean" | .str "integer" | .str "number" | .str "string" =>
          let d := propGetD schemaProps "default" .null
          .ok ((d, isNotNone d), schema)
      | .str "null" => .ok ((.null, true), schema)
      | _ => .ok ((.null, false), schema)

def extractDefaultsLoop :
    Nat → List (String × JValue) → JValue → JValue → Except PyErr ((JValue × Bool) × JValue)
  | 0, _, _, _ => .error .recursionLimit
  | _ + 1, [], defaults, schema => .ok ((defaults, true), schema)
  | fuel + 1, (i, v) :: rest, defaults, schema => do
      let propsVal := refTarget v schema
      let schema1 :=
        match schema with
        | .obj kvs => JValue.obj (objSet kvs "properties" propsVal)
        | _ => schema
      let r ← extractDefaults fuel schema1
      match r with
      | ((subDefaults, found), schema2) =>
        if found then
          match defaults with
          | .obj dkvs =>
              extractDefaultsLoop fuel rest (.obj (objSet dkvs i subDefaults)) schema2
          | _ => .error .typeError
        else
          extractDefaultsLoop fuel rest defaults schema2

end


/-! ## Default extraction, `Configuration.py` (`Configuration.extract_schema_defaults`)

A near-verbatim copy of `extract_JSON_schema_defaults.main` with one
difference: in the primitive branch (`boolean`/`integer`/`number`/`string`)
the found flag is set by `if defaults:` — Python truthiness — instead of
`if defaults is not None:` (`Configuration.py`, lines 156-158). -/

mutual

def cfgExtractDefaults : Nat → JValue → Except PyErr ((JValue × Bool) × JValue)
  | 0, _ => .error .recursionLimit
  | fuel + 1, schema => do
      let some schemaProps := dictGetD schema "properties" (.obj [])
        | .error .attributeError
      let propsType : JValue :=
        match schemaProps with
        | .obj kvs => (objGet kvs "type").getD (.str "object")
        | _ => .null
      match propsType with
      | .str "array" =>
          .ok ((propGetD schemaProps "default" (.arr []), true), schema)
      | .str "object" =>
          match schemaProps with
          | .obj pkvs =>
              cfgExtractDefaultsLoop fuel pkvs (propGetD schemaProps "default" (.obj [])) schema
          | _ => .error .attributeError
      | .str "boolean" | .str "integer" | .str "number" | .str "string" =>
          let d := propGetD schemaProps "default" .null
          .ok ((d, truthy d), schema)
      | .str "null" => .ok ((.null, true), schema)
      | _ => .ok ((.null, false), schema)

def cfgExtractDefaultsLoop :
    Nat → List (String × JValue) → JValue → JValue → Except PyErr ((JValue × Bool) × JValue)
  | 0, _, _, _ => .error .recursionLimit
  | _ + 1, [], defaults, schema => .ok ((defaults, true), schema)
  | fuel + 1, (i, v) :: rest, defaults, schema => do
      let propsVal := refTarget v schema
      let schema1 :=
        match schema with
        | .obj kvs => JValue.obj (objSet kvs "properties" propsVal)
        | _ => schema
      let r ← cfgExtractDefaults fuel schema1
      match r with
      | ((subDefaults, found), schema2) =>
        if found then
          match defaults with
          | .obj dkvs =>
              cfgExtractDefaultsLoop fuel rest (.obj (objSet dkvs i subDefaults)) schema2
          | _ => .error .typeError
        else
          cfgExtractDefaultsLoop fuel rest defaults schema2

end

/-! ## `Configuration.set_from_json` (`Configuration.py`, lines 44-84)

After the (third-party) `jsonschema.validate(config, schema)` call — not
part of this repository, and succeeding on every input considered below —
the method runs

    extrcatedDefaults = self.extract_schema_defaults(schema)
    for i in extrcatedDefaults:
        self.__dict__[i] = extrcatedDefaults[i]

`extract_schema_defaults` returns the PAIR `(defaults, defaultsFound)`, so
the loop iterates over the pair's two components and `extrcatedDefaults[i]`
indexes the pair with each component; a component that is not an `int` (or
`bool`) raises `TypeError: tuple indices must be integers`.  Then

    for i in config:
        self.__dict__[i] = config[i]

copies the document's top-level entries over the attribute dict.  The
attribute dict `self.__dict__` may receive non-string keys here, so it is
modelled with `JValue` keys. -/

/-- Python `tup[i]` on a 2-tuple: `bool` indexes as `0`/`1`, an `int` indexes
with negative-index wraparound, anything else raises `TypeError`. -/
def tupleIndex (tup : List JValue) (idx : JValue) : Except PyErr JValue :=
  let pick : Int → Except PyErr JValue := fun n =>
    let n := if n < 0 then n + tup.length else n
    if h : 0 ≤ n ∧ n.toNat < tup.length then .ok (tup.get ⟨n.toNat, h.2⟩)
    else .error .indexError
  match idx with
  | .bool b => pick (if b then 1 else 0)
  | .int n => pick n
  | _ => .error .typeError

/-- Assignment `d[k] = v` on a Python dict with arbitrary keys: an unhashable
key (a list or dict) raises `TypeError`. -/
def pyDictSet (d : List (JValue × JValue)) (k v : JValue) : Except PyErr (List (JValue × JValue)) :=
  match k with
  | .arr _ => .error .typeError
  | .obj _ => .error .typeError
  | _ =>
      if d.any fun kv => beqJ kv.1 k then
        .ok (d.map fun kv => if beqJ kv.1 k then (k, v) else kv)
      else .ok (d ++ [(k, v)])

/-- One iteration of the defaults loop: the right-hand side
`extrcatedDefaults[i]` is evaluated first, then the attribute assignment. -/
def tupleAssign (d : List (JValue × JValue)) (tup : List JValue) (i : JValue) :
    Except PyErr (List (JValue × JValue)) := do
  let v ← tupleIndex tup i
  pyDictSet d i v

def setFromJsonFold (d : List (JValue × JValue)) :
    List (String × JValue) → Except PyErr (List (JValue × JValue))
  | [] => .ok d
  | (k, v) :: rest => do
      let d1 ← pyDictSet d (.str k) v
      setFromJsonFold d1 rest

def setFromJson (fuel : Nat) (selfDict : List (JValue × JValue)) (config schema : JValue) :
    Except PyErr (List (JValue × JValue)) := do
  let r ← cfgExtractDefaults fuel schema
  match r with
  | ((defaults, found), _schema2) =>
    let tup : List JValue := [defaults, .bool found]
    let d1 ← tupleAssign selfDict tup defaults
    let d2 ← tupleAssign d1 tup (.bool found)
    match config with
    | .obj ckvs => setFromJsonFold d2 ckvs
    | _ => .error .typeError


/-! ## The validator, `json_validator.py`

`Validator._validate(instance, schema)` iterates over the schema's
key/value pairs; for a key `i` it looks up the method
`_validate_{i.lstrip("$")}`; a missing method only prints a warning.  Each
rule is a generator; every yielded error gets its `validator` field set to
the keyword name unless a deeper recursion already set it.  Note the
source's quirks, all reproduced here:

  * the method for `dependencies` is named `validate_dependencies` (no
    leading underscore), so the `dependencies` keyword is never dispatched;
  * the method for `maxProperties`/`minProperties` is named
    `_validate_maxProperies`/`_validate_minProperies` (typo), so the
    standard keyword spelling is never dispatched either;
  * there is no `_validate_type`, `_validate_required`, `_validate_enum`,
    ...: those keywords are warnings, not checks;
  * `_is_type` executes `raise False` (a `TypeError`: exceptions must derive
    from `BaseException`) when a `bool` instance is checked against a type
    tuple containing `int` but not `bool`;
  * `_validate_items` with a single object schema validates the items schema
    against itself (`self._validate(items, items)`) instead of validating
    each element;
  * `_validate_uniqueItems` yields its error when all elements are DISTINCT
    (`len(set(instance)) == len(instance)`);
  * `_validate(instance, schema)` replaces a falsy `schema` argument by the
    validator's root schema (`if not schema: schema = self._schema`).
-/

/-- The Python classes appearing in `Validator.defaultTypes`. -/
inductive PyClass : Type where
  | listC : PyClass
  | boolC : PyClass
  | intC : PyClass
  | noneC : PyClass
  | floatC : PyClass
  | dictC : PyClass
  | strC : PyClass
  deriving DecidableEq

/-- `Validator.defaultTypes` plus the generated `"any"` entry (the flattened
tuple of all registered types).  No claim uses custom `types`. -/
def typesFor : String → Option (List PyClass)
  | "array" => some [.listC]
  | "boolean" => some [.boolC]
  | "integer" => some [.intC]
  | "null" => some [.noneC]
  | "number" => some [.floatC, .intC]
  | "object" => some [.dictC]
  | "string" => some [.strC]
  | "any" => some [.listC, .boolC, .intC, .noneC, .floatC, .intC, .dictC, .strC]
  | _ => none

/-- Python `isinstance` of a JSON value against one class; `bool` is a
subclass of `int`. -/
def isinstCls : JValue → PyClass → Bool
  | .null, .noneC => true
  | .bool _, .boolC => true
  | .bool _, .intC => true
  | .int _, .intC => true
  | .str _, .strC => true
  | .arr _, .listC => true
  | .obj _, .dictC => true
  | _, _ => false

/-- `Validator._is_type` (lines 139-161).  An unregistered type name raises
`UnknownType`; for a `bool` instance, `raise False` — which in Python is a
`TypeError` ("exceptions must derive from BaseException") — fires whenever
`int` is among the permitted classes and `bool` is not. -/
def isType (inst : JValue) (typeToCheck : String) : Except PyErr Bool :=
  match typesFor typeToCheck with
  | none => .error .unknownType
  | some types =>
      match inst with
      | .bool _ =>
          if types.contains .intC && !(types.contains .boolC) then .error .typeError
          else .ok (types.any (isinstCls inst))
      | _ => .ok (types.any (isinstCls inst))

/-- One segment of a `ValidationError.path`: a property name or an array
index. -/
inductive PathElem : Type where
  | s : String → PathElem
  | n : Nat → PathElem
  deriving DecidableEq

/-- A `ValidationError` as far as its observable attributes go: `message`,
`path` and `validator` (`none` models the class-level `validator = None`
before `_validate` fills it in). -/
structure VError : Type where
  message : String
  path : List PathElem
  validator : Option String

/-- `error.path.insert(0, p)`. -/
def pathPrepend (p : PathElem) (e : VError) : VError :=
  { e with path := p :: e.path }

/-- Python `str.lstrip("$")`. -/
def lstripDollar (s : String) : String :=
  String.mk (s.data.dropWhile (· == '$'))

/-- Numeric comparison `a < b` as in `_validate_maximum`: both operands must
be numbers (`bool` counts as `0`/`1`), otherwise Python raises `TypeError`. -/
def pyLt (a b : JValue) : Except PyErr Bool :=
  let num : JValue → Option Int := fun v =>
    match v with
    | .int n => some n
    | .bool x => some (if x then 1 else 0)
    | _ => none
  match num a, num b with
  | some x, some y => .ok (x < y)
  | _, _ =>
      match a, b with
      | .str x, .str y => .ok (x < y)
      | _, _ => .error .typeError

/-- Numeric comparison `a <= b` (see `pyLt`). -/
def pyLe (a b : JValue) : Except PyErr Bool :=
  let num : JValue → Option Int := fun v =>
    match v with
    | .int n => some n
    | .bool x => some (if x then 1 else 0)
    | _ => none
  match num a, num b with
  | some x, some y => .ok (x ≤ y)
  | _, _ =>
      match a, b with
      | .str x, .str y => .ok (x ≤ y)
      | _, _ => .error .typeError

/-- Python `len(set(xs))`: raises `TypeError` on unhashable elements (lists,
dicts); otherwise the number of pairwise-distinct elements. -/
def pySetLen (xs : List JValue) : Except PyErr Nat :=
  if xs.any fun x => (match x with | .arr _ => true | .obj _ => true | _ => false) then
    .error .typeError
  else
    .ok ((xs.foldl (fun seen x => if seen.any (beqJ x) then seen else x :: seen) []).length)

/-- Python `int()` truncation; the identity on the integers of this model
(float instances do not occur). -/
def pyIntTrunc (n : Int) : Int := n

/-- Python `%` with an integer left operand: `bool` divisors coerce to
`0`/`1`, a zero divisor raises `ZeroDivisionError`, a non-numeric divisor
raises `TypeError`.  `Int.fmod` matches Python's sign convention. -/
def pyMod (n : Int) (m : JValue) : Except PyErr Int :=
  match m with
  | .int d => if d = 0 then .error .zeroDivisionError else .ok (n.fmod d)
  | .bool x => if x then .ok (n.fmod 1) else .error .zeroDivisionError
  | _ => .error .typeError

/-- `re.match(pattern, instance)` modelled for literal (metacharacter-free)
patterns: a match at the start of the string.  No claim exercises the
`pattern` keyword. -/
def reMatch (p s : String) : Bool :=
  p.isPrefixOf s

/-- Python `', '.join(xs)`: every element must be a string, otherwise
`TypeError`. -/
def pyJoin (xs : List JValue) : Except PyErr String :=
  match xs.mapM (fun v => match v with | .str s => some s | _ => none) with
  | some ss => .ok (String.intercalate ", " ss)
  | none => .error .typeError

/-- Iterating a Python value (`for item in elem`): a list yields its
elements, a string its characters, a dict its keys; anything else raises
`TypeError`. -/
def pyIter (v : JValue) : Except PyErr (List JValue) :=
  match v with
  | .arr xs => .ok xs
  | .str s => .ok (s.data.map fun c => .str (String.mk [c]))
  | .obj kvs => .ok (kvs.map fun kv => .str kv.1)
  | _ => .error .typeError

/-- `Validator._validate_maximum` (lines 294-321). -/
def validateMaximum (maximum inst schema : JValue) : Except PyErr (List VError) := do
  let isNum ← isType inst "number"
  if isNum then do
    let exclusiveMax := propGetD schema "exclusiveMaximum" (.bool false)
    let isB ← isType exclusiveMax "boolean"
    if isB then do
      let ex := truthy exclusiveMax
      let isValid ← if ex then pyLt inst maximum else pyLe inst maximum
      if isValid then .ok []
      else
        .ok [⟨pyStr inst ++ " is greater than" ++ (if ex then " or equal to" else "") ++
          " the maximum value of " ++ pyStr maximum ++ ".", [], none⟩]
    else .ok []
  else .ok []

/-- `Validator._validate_minimum` (lines 380-407). -/
def validateMinimum (minimum inst schema : JValue) : Except PyErr (List VError) := do
  let isNum ← isType inst "number"
  if isNum then do
    let exclusiveMin := propGetD schema "exclusiveMinimum" (.bool false)
    let isB ← isType exclusiveMin "boolean"
    if isB then do
      let ex := truthy exclusiveMin
      let isValid ← if ex then pyLt minimum inst else pyLe minimum inst
      if isValid then .ok []
      else
        .ok [⟨pyStr inst ++ " is less than" ++ (if ex then " or equal to" else "") ++
          " the minimum value of " ++ pyStr minimum ++ ".", [], none⟩]
    else .ok []
  else .ok []

/-- `Validator._validate_maxItems` (lines 323-338); note the source's `>=`
comparison. -/
def validateMaxItems (maxItems inst _schema : JValue) : Except PyErr (List VError) := do
  let a ← isType maxItems "integer"
  if !a then .ok [] else
  match maxItems with
  | .int m =>
      if m < 0 then .ok [] else do
      let b ← isType inst "array"
      if !b then .ok [] else
      match inst with
      | .arr xs =>
          if (xs.length : Int) ≥ m then
            .ok [⟨pyStr inst ++ " has more items than the maximum of " ++ toString m ++ ".",
              [], none⟩]
          else .ok []
      | _ => .ok []
  | _ => .ok []

/-- `Validator._validate_minItems` (lines 409-424); note the source's `<=`
comparison. -/
def validateMinItems (minItems inst _schema : JValue) : Except PyErr (List VError) := do
  let a ← isType minItems "integer"
  if !a then .ok [] else
  match minItems with
  | .int m =>
      if m < 0 then .ok [] else do
      let b ← isType inst "array"
      if !b then .ok [] else
      match inst with
      | .arr xs =>
          if (xs.length : Int) ≤ m then
            .ok [⟨pyStr inst ++ " has fewer items than the minimum of " ++ toString m ++ ".",
              [], none⟩]
          else .ok []
      | _ => .ok []
  | _ => .ok []

/-- `Validator._validate_maxLength` (lines 340-355). -/
def validateMaxLength (maxLength inst _schema : JValue) : Except PyErr (List VError) := do
  let a ← isType maxLength "integer"
  if !a then .ok [] else
  match maxLength with
  | .int m =>
      if m < 0 then .ok [] else do
      let b ← isType inst "string"
      if !b then .ok [] else
      match inst with
      | .str s =>
          if (s.length : Int) > m then
            .ok [⟨s ++ " is longer than the maximum length of " ++ toString m ++ ".", [], none⟩]
          else .ok []
      | _ => .ok []
  | _ => .ok []

/-- `Validator._validate_minLength` (lines 426-441). -/
def validateMinLength (minLength inst _schema : JValue) : Except PyErr (List VError) := do
  let a ← isType minLength "integer"
  if !a then .ok [] else
  match minLength with
  | .int m =>
      if m < 0 then .ok [] else do
      let b ← isType inst "string"
      if !b then .ok [] else
      match inst with
      | .str s =>
          if (s.length : Int) < m then
            .ok [⟨s ++ " is shorter than the minimum length of " ++ toString m ++ ".", [], none⟩]
          else .ok []
      | _ => .ok []
  | _ => .ok []

/-- `Validator._validate_maxProperies` (lines 357-378) — the method name
carries the source's typo, so only a schema key spelled `maxProperies`
reaches it. -/
def validateMaxProperies (maxProp inst _schema : JValue) : Except PyErr (List VError) := do
  let a ← isType inst "object"
  if !a then .ok [] else do
  let b ← isType maxProp "integer"
  if !b then .ok [] else
  match maxProp with
  | .int m =>
      if m < 0 then .ok [] else
      match inst with
      | .obj kvs =>
          if (kvs.length : Int) > m then
            .ok [⟨"The number of properties " ++ toString (kvs.length : Int) ++
              " was greater than the maximum allowed " ++ toString m, [], none⟩]
          else .ok []
      | _ => .ok []
  | _ => .ok []

/-- `Validator._validate_minProperies` (lines 443-463) — same typo as
`maxProperies`. -/
def validateMinProperies (minProp inst _schema : JValue) : Except PyErr (List VError) := do
  let a ← isType inst "object"
  if !a then .ok [] else do
  let b ← isType minProp "integer"
  if !b then .ok [] else
  match minProp with
  | .int m =>
      if m < 0 then .ok [] else
      match inst with
      | .obj kvs =>
          if (kvs.length : Int) < m then
            .ok [⟨"The number of properties " ++ toString (kvs.length : Int) ++
              " was less than the minimum allowed " ++ toString m, [], none⟩]
          else .ok []
      | _ => .ok []
  | _ => .ok []

/-- `Validator._validate_multipleOf` (lines 465-482).  With the integer
instances of this model `int(instance % multiple) == (instance % multiple)`
always holds, so the rule can only raise (zero or non-numeric divisor),
never yield. -/
def validateMultipleOf (multiple inst _schema : JValue) : Except PyErr (List VError) := do
  let isNum ← isType inst "number"
  if isNum then
    match inst with
    | .int n => do
        let m ← pyMod n multiple
        if pyIntTrunc m = m then .ok []
        else
          .ok [⟨pyStr inst ++ " is not an integer multiple of " ++ pyStr multiple ++ ".",
            [], none⟩]
    | _ => .ok []
  else .ok []

/-- `Validator._validate_pattern` (lines 484-498). -/
def validatePattern (pattern inst _schema : JValue) : Except PyErr (List VError) := do
  let a ← isType pattern "string"
  if !a then .ok [] else do
  let b ← isType inst "string"
  if !b then .ok [] else
  match pattern, inst with
  | .str p, .str s =>
      if !reMatch p s then
        .ok [⟨s ++ " does not match the pattern " ++ p ++ ".", [], none⟩]
      else .ok []
  | _, _ => .ok []

/-- `Validator._validate_uniqueItems` (lines 528-545).  The source yields
its error when `len(set(instance)) == len(instance)`, i.e. when all
(hashable) elements are pairwise DISTINCT. -/
def validateUniqueItems (isUnique inst _schema : JValue) : Except PyErr (List VError) := do
  let a ← isType isUnique "boolean"
  if !a then .ok [] else
  if !(truthy isUnique) then .ok [] else do
  let b ← isType inst "array"
  if !b then .ok [] else
  match inst with
  | .arr xs => do
      let n ← pySetLen xs
      if n = xs.length then
        .ok [⟨pyStr inst ++ " has non-unique elements.", [], none⟩]
      else .ok []
  | _ => .ok []

mutual

/-- `Validator._validate` (lines 163-194): a falsy `schema` argument is
replaced by the validator's root schema, then each schema key dispatches to
its rule; the full error sequence of the generator is collected. -/
def validate : Nat → JValue → JValue → JValue → Except PyErr (List VError)
  | 0, _, _, _ => .error .recursionLimit
  | fuel + 1, root, inst, schema =>
      let schema := if truthy schema then schema else root
      match schema with
      | .obj kvs => validateKeys fuel root inst (.obj kvs) kvs
      | _ => .error .typeError

/-- The `for i, j in iteritems(schema)` loop of `_validate`: each yielded
error has its `validator` attribute set to the keyword name unless a deeper
recursion already set it. -/
def validateKeys :
    Nat → JValue → JValue → JValue → List (String × JValue) → Except PyErr (List VError)
  | 0, _, _, _, _ => .error .recursionLimit
  | _ + 1, _, _, _, [] => .ok []
  | fuel + 1, root, inst, schema, (key, j) :: rest => do
      let name := lstripDollar key
      let errs ← dispatchRule fuel root name j inst schema
      let errs := errs.map fun e =>
        { e with validator := match e.validator with | some v => some v | none => some name }
      let more ← validateKeys fuel root inst schema rest
      .ok (errs ++ more)

/-- `getattr(self, "_validate_" + name, None)`: the keywords with a matching
method.  `dependencies` is NOT here (the source's method lacks the leading
underscore), nor are `type`, `required`, `enum`, `maxProperties`,
`minProperties` (the methods carry the `maxProperies` typo) — those produce
only a warning. -/
def dispatchRule :
    Nat → JValue → String → JValue → JValue → JValue → Except PyErr (List VError)
  | 0, _, _, _, _, _ => .error .recursionLimit
  | fuel + 1, root, name, j, inst, schema =>
      match name with
      | "additionalItems" => validateAdditionalItems fuel root j inst schema
      | "items" => validateItems fuel root j inst schema
      | "maximum" => validateMaximum j inst schema
      | "maxItems" => validateMaxItems j inst schema
      | "maxLength" => validateMaxLength j inst schema
      | "maxProperies" => validateMaxProperies j inst schema
      | "minimum" => validateMinimum j inst schema
      | "minItems" => validateMinItems j inst schema
      | "minLength" => validateMinLength j inst schema
      | "minProperies" => validateMinProperies j inst schema
      | "multipleOf" => validateMultipleOf j inst schema
      | "pattern" => validatePattern j inst schema
      | "properties" => validateProperties fuel root j inst schema
      | "uniqueItems" => validateUniqueItems j inst schema
      | _ => .ok []

/-- `Validator._validate_properties` (lines 500-526): only object instances
are checked; a present property recurses with the property name prepended to
each error path; an absent property whose sub-schema has a truthy
`required` key yields the `"required"`-tagged error. -/
def validateProperties :
    Nat → JValue → JValue → JValue → JValue → Except PyErr (List VError)
  | 0, _, _, _, _ => .error .recursionLimit
  | fuel + 1, root, properties, inst, _schema => do
      let isObj ← isType inst "object"
      if isObj then
        match properties with
        | .obj pkvs => validatePropertiesLoop fuel root pkvs inst
        | _ => .error .typeError
      else .ok []

/-- The `for prop, subschema in iteritems(properties)` loop of
`_validate_properties`. -/
def validatePropertiesLoop :
    Nat → JValue → List (String × JValue) → JValue → Except PyErr (List VError)
  | 0, _, _, _ => .error .recursionLimit
  | _ + 1, _, [], _ => .ok []
  | fuel + 1, root, (prop, subschema) :: rest, inst => do
      let present :=
        match inst with
        | .obj ikvs => objGet ikvs prop
        | _ => none
      match present with
      | some v => do
          let errs ← validate fuel root v subschema
          let errs := errs.map (pathPrepend (.s prop))
          let more ← validatePropertiesLoop fuel root rest inst
          .ok (errs ++ more)
      | none =>
          match subschema with
          | .obj skvs =>
              if truthy ((objGet skvs "required").getD (.bool false)) then do
                let more ← validatePropertiesLoop fuel root rest inst
                .ok (⟨prop ++ " is a required property.", [.s prop], some "required"⟩ :: more)
              else
                validatePropertiesLoop fuel root rest inst
          | _ => .error .attributeError

/-- `Validator._validate_items` (lines 264-292).  With a single object
schema the source validates the items schema AGAINST ITSELF once per element
(`self._validate(items, items)`), prepending the element index to each
error path; the elements themselves are never inspected.  With an array of
schemas it zips elements with schemas. -/
def validateItems : Nat → JValue → JValue → JValue → JValue → Except PyErr (List VError)
  | 0, _, _, _, _ => .error .recursionLimit
  | fuel + 1, root, items, inst, _schema => do
      let isArr ← isType inst "array"
      if !isArr then .ok [] else do
      let isObj ← isType items "object"
      if isObj then
        match inst with
        | .arr xs =>
            match xs with
            | [] => .ok []
            | _ => do
                let inner ← validate fuel root items items
                .ok ((List.range xs.length).flatMap fun idx => inner.map (pathPrepend (.n idx)))
        | _ => .ok []
      else do
        let isArr2 ← isType items "array"
        if isArr2 then
          match inst, items with
          | .arr xs, .arr ss => validateItemsZip fuel root xs ss 0
          | _, _ => .ok []
        else .ok []

/-- The `zip(enumerate(instance), items)` loop of `_validate_items`. -/
def validateItemsZip :
    Nat → JValue → List JValue → List JValue → Nat → Except PyErr (List VError)
  | 0, _, _, _, _ => .error .recursionLimit
  | _ + 1, _, [], _, _ => .ok []
  | _ + 1, _, _, [], _ => .ok []
  | fuel + 1, root, item :: xs, subschema :: ss, idx => do
      let errs ← validate fuel root item subschema
      let errs := errs.map (pathPrepend (.n idx))
      let more ← validateItemsZip fuel root xs ss (idx + 1)
      .ok (errs ++ more)

/-- `Validator._validate_additionalItems` (lines 196-228), including the
source's convoluted element selection
`instance[len(instance[len(schema.get("items", [])):])]` (a single index:
`IndexError` when out of range) and, in the boolean branch, the
`', '.join(...)` over the surplus elements (a `TypeError` unless they are
all strings). -/
def validateAdditionalItems :
    Nat → JValue → JValue → JValue → JValue → Except PyErr (List VError)
  | 0, _, _, _, _ => .error .recursionLimit
  | fuel + 1, root, addItems, inst, schema => do
      let isArr ← isType inst "array"
      if !isArr then .ok [] else do
      let itemsV := propGetD schema "items" .null
      let isItemsArr ← isType itemsV "array"
      if !isItemsArr then .ok [] else do
      let isObj ← isType addItems "object"
      if isObj then
        match inst, itemsV with
        | .arr xs, .arr its =>
            let n := (xs.drop its.length).length
            match xs.get? n with
            | none => .error .indexError
            | some elem => do
                let innerItems ← pyIter elem
                validateAdditionalItemsLoop fuel root addItems innerItems
        | _, _ => .ok []
      else do
        let isB ← isType addItems "boolean"
        match inst, itemsV with
        | .arr xs, .arr its =>
            if isB && !(truthy addItems) && xs.length > its.length then do
              let joined ← pyJoin (xs.drop its.length)
              .ok [⟨"Additional items " ++ joined ++ " not allowed.", [], none⟩]
            else .ok []
        | _, _ => .ok []

/-- The `for item in ...` loop of `_validate_additionalItems`; note the
swapped arguments of the source (`self._validate(addItems, item)` validates
`addItems` as the instance against each `item` as the schema). -/
def validateAdditionalItemsLoop :
    Nat → JValue → JValue → List JValue → Except PyErr (List VError)
  | 0, _, _, _ => .error .recursionLimit
  | _ + 1, _, _, [] => .ok []
  | fuel + 1, root, addItems, item :: rest => do
      let errs ← validate fuel root addItems item
      let more ← validateAdditionalItemsLoop fuel root addItems rest
      .ok (errs ++ more)

end

/-! ## Supporting definitions for the theorems -/

/-- Insertion into the distinct-elements accumulator of `pySetLen`,
specialised to `Int` (used to relate `len(set(...))` to `List.Nodup`). -/
def intInsert (s : List Int) (x : Int) : List Int :=
  if s.any fun y => x == y then s else x :: s

/-- A schema node that is a dict carrying a string-valued `"$ref"` key — the
one shape on which `refTarget` performs a (single-level) resolution instead
of returning the node unchanged. -/
def chainedRef : JValue → Bool
  | .obj kvs =>
      match objGet kvs "$ref" with
      | some (.str _) => true
      | _ => false
  | _ => false

/-! ## Helper lemmas -/

lemma okBind {α β : Type} (a : α) (f : α → Except PyErr β) : (Except.ok a >>= f) = f a := rfl

lemma errBind {α β : Type} (e : PyErr) (f : α → Except PyErr β) :
    ((Except.error e : Except PyErr α) >>= f) = .error e := rfl

lemma foldIntInsert_len_le (xs : List Int) : ∀ seen : List Int,
    (xs.foldl intInsert seen).length ≤ seen.length + xs.length := by
  induction xs with
  | nil => simp
  | cons x xs ih =>
      intro seen
      by_cases h : seen.any fun y => x == y
      · simp only [List.foldl_cons, intInsert, h, if_pos]
        calc (xs.foldl intInsert seen).length ≤ seen.length + xs.length := ih seen
          _ ≤ seen.length + (x :: xs).length := by simp
      · simp only [List.foldl_cons, intInsert, h, if_neg, Bool.not_eq_true]
        calc (xs.foldl intInsert (x :: seen)).length ≤ (x :: seen).length + xs.length := ih _
          _ = seen.length + (x :: xs).length := by simp; omega

lemma foldIntInsert_len_eq_iff (xs : List Int) : ∀ seen : List Int,
    ((xs.foldl intInsert seen).length = seen.length + xs.length) ↔
      (xs.Nodup ∧ ∀ x ∈ xs, x ∉ seen) := by
  induction xs with
  | nil => simp
  | cons x xs ih =>
      intro seen
      by_cases h : seen.any fun y => x == y
      · have hx : x ∈ seen := by
          obtain ⟨y, hy, he⟩ := List.any_eq_true.mp h
          simpa [beq_iff_eq] using (beq_iff_eq.mp he ▸ hy)
        simp only [List.foldl_cons, intInsert, h, if_pos]
        have hle := foldIntInsert_len_le xs seen
        constructor
        · intro hlen; exfalso; simp [List.length_cons] at hlen; omega
        · rintro ⟨-, hfresh⟩
          exact absurd hx (hfresh x (List.mem_cons_self x xs))
      · have hx : x ∉ seen := by
          intro hmem
          exact h (List.any_eq_true.mpr ⟨x, hmem, by simp⟩)
        simp only [List.foldl_cons, intInsert, h, if_neg, Bool.not_eq_true]
        rw [show seen.length + (x :: xs).length = (x :: seen).length + xs.length by simp; omega]
        rw [ih (x :: seen)]
        constructor
        · rintro ⟨hnd, hfresh⟩
          refine ⟨List.nodup_cons.mpr ⟨fun hmem => (hfresh x hmem (by simp)).elim, hnd⟩, ?_⟩
          intro y hy hymem
          rcases List.mem_cons.mp hy with rfl | hy2
          · exact hx hymem
          · exact hfresh y hy2 (by simp [hymem])
        · rintro ⟨hnd, hfresh⟩
          obtain ⟨hxnotin, hnd2⟩ := List.nodup_cons.mp hnd
          refine ⟨hnd2, ?_⟩
          intro y hy hymem
          rcases List.mem_cons.mp hymem with rfl | hy2
          · exact hxnotin hy
          · exact hfresh y (by simp [hy]) hy2

lemma foldBeqJ_map_int (xs : List Int) : ∀ seen : List Int,
    (xs.map JValue.int).foldl
        (fun seen x => if seen.any (beqJ x) then seen else x :: seen)
        (seen.map JValue.int) =
      (xs.foldl intInsert seen).map JValue.int := by
  induction xs with
  | nil => intro seen; simp
  | cons x xs ih =>
      intro seen
      have hany : (seen.map JValue.int).any (beqJ (.int x)) = seen.any fun y => x == y := by
        induction seen with
        | nil => rfl
        | cons z zs ihz =>
            simp only [List.map_cons, List.any_cons, ihz]
            rfl
      simp only [List.map_cons, List.foldl_cons, hany, intInsert]
      by_cases h : seen.any fun y => x == y
      · simp only [h, if_pos]
        exact ih seen
      · simp only [h, if_neg, Bool.not_eq_true]
        have := ih (x :: seen)
        simpa using this

lemma pySetLen_map_int (xs : List Int) :
    pySetLen (xs.map JValue.int) = .ok (xs.foldl intInsert []).length := by
  unfold pySetLen
  have hunh : ((xs.map JValue.int).any fun x =>
      (match x with | .arr _ => true | .obj _ => true | _ => false)) = false := by
    induction xs with
    | nil => rfl
    | cons z zs ihz => simp only [List.map_cons, List.any_cons, ihz, Bool.or_false]
  rw [hunh]
  simp only [Bool.false_eq_true, if_neg, not_false_iff]
  have := foldBeqJ_map_int xs []
  simp only [List.map_nil] at this
  rw [this, List.length_map]

lemma distinct_len_iff_nodup (xs : List Int) :
    ((xs.foldl intInsert []).length = xs.length) ↔ xs.Nodup := by
  have := foldIntInsert_len_eq_iff xs []
  simpa using this

lemma refTarget_eq_self {v : JValue} (h : chainedRef v = false) (s : JValue) :
    refTarget v s = v := by
  unfold refTarget
  unfold chainedRef at h
  match v with
  | .null | .bool _ | .int _ | .str _ | .arr _ => rfl
  | .obj kvs =>
      cases hg : objGet kvs "$ref" with
      | none => simp [hg]
      | some w =>
          cases w <;> simp [hg]
          simp [hg] at h

/-- Evaluation of the validator on the schema `{"uniqueItems": true}` for an
arbitrary array instance, up to the value of `len(set(instance))`. -/
lemma validate_uniqueItems_eval (v : List JValue) (n : Nat) (h : pySetLen v = .ok n) :
    validate 6 (.obj [("uniqueItems", .bool true)]) (.arr v) (.obj [("uniqueItems", .bool true)]) =
      .ok (if n = v.length then
        [⟨pyStr (.arr v) ++ " has non-unique elements.", [], some "uniqueItems"⟩]
      else []) := by
  simp [validate, validateKeys, dispatchRule, validateUniqueItems, isType, typesFor,
    isinstCls, truthy, h, okBind, errBind,
    show lstripDollar "uniqueItems" = "uniqueItems" from rfl]
  by_cases hn : n = v.length <;> simp only [hn] <;> rfl

/-! ## The claims -/

/-- C1: the claim states that after `Configuration.set_from_json` loads a
document against a schema, explicitly set values are preserved and schema
defaults (including defaults nested inside partially specified sub-objects,
such as `{"f": {}}` against a default for `f.x`) fill everything the user
did not specify.  In fact `set_from_json` never completes on such an input:
it binds the `(defaults, found)` pair returned by `extract_schema_defaults`,
iterates over that pair, and indexes the pair with the defaults dict itself,
raising `TypeError` (lines 78-80 of `Configuration.py`) — even though the
extraction had produced the defaults tree `{"f": {"x": 1}}` that the claim
expects to be merged. -/
theorem claim1_set_from_json_crashes :
    setFromJson 10 []
        (.obj [("f", .obj [])])
        (.obj [("properties", .obj [("f", .obj [("type", .str "object"),
          ("x", .obj [("type", .str "integer"), ("default", .int 1)])])])]) =
      .error .typeError ∧
    (cfgExtractDefaults 10
        (.obj [("properties", .obj [("f", .obj [("type", .str "object"),
          ("x", .obj [("type", .str "integer"), ("default", .int 1)])])])])).map
        (fun r => r.1) =
      .ok (.obj [("f", .obj [("x", .int 1)])], true) :=
  ⟨rfl, rfl⟩

/-- C2: the claim states that for primitive-typed schema nodes a present
`default` key always yields `found = true`, including the falsy values `0`,
`""` and `false`.  `Configuration.extract_schema_defaults` tests the default
with `if defaults:` (truthiness), so the node
`{"type": "boolean", "default": false}` yields `found = false` — the falsy
default is dropped — while the sibling implementation
`extract_JSON_schema_defaults.main`, with its `is not None` test, returns
`found = true` for the same node. -/
theorem claim2_falsy_default_dropped :
    cfgExtractDefaults 10 (.obj [("properties", .obj [("type", .str "boolean"),
        ("default", .bool false)])]) =
      .ok ((.bool false, false),
        .obj [("properties", .obj [("type", .str "boolean"), ("default", .bool false)])]) ∧
    extractDefaults 10 (.obj [("properties", .obj [("type", .str "boolean"),
        ("default", .bool false)])]) =
      .ok ((.bool false, true),
        .obj [("properties", .obj [("type", .str "boolean"), ("default", .bool false)])]) :=
  ⟨rfl, rfl⟩

/-- C3: the claim states that default extraction leaves the schema document
unchanged and that extracting twice yields identical default trees.  The
source assigns into `schema["properties"]` while walking: on
`{"properties": {"a": {"type": "integer", "default": 1}}}` the first
extraction returns the tree `{"a": 1}` but leaves the schema mutated to
`{"properties": {"type": "integer", "default": 1}}`; a second extraction on
the mutated schema returns the bare default `1` — a different tree. -/
theorem claim3_extraction_mutates_schema :
    extractDefaults 10
        (.obj [("properties", .obj [("a", .obj [("type", .str "integer"), ("default", .int 1)])])]) =
      .ok ((.obj [("a", .int 1)], true),
        .obj [("properties", .obj [("type", .str "integer"), ("default", .int 1)])]) ∧
    extractDefaults 10
        (.obj [("properties", .obj [("type", .str "integer"), ("default", .int 1)])]) =
      .ok ((.int 1, true),
        .obj [("properties", .obj [("type", .str "integer"), ("default", .int 1)])]) ∧
    ((JValue.obj [("a", .int 1)], true) : JValue × Bool) ≠ ((.int 1 : JValue), true) :=
  ⟨rfl, rfl, by simp⟩

/-- C4 counterexample: the claim states that an unresolvable `$ref` raises a
`SchemaError`.  On `{"properties": {"a": {"$ref": "#/definitions/X"}}}`,
whose reference cannot resolve, `extract_JSON_schema_defaults.main` raises
nothing at all: it returns successfully with the silent empty default tree
`{}` (the reference walk produces `None`, which is grafted into
`schema["properties"]` and extracted as "no default"). -/
theorem claim4_counterexample_no_error_on_unresolvable_ref :
    extractDefaults 10 (.obj [("properties", .obj [("a", .obj [("$ref", .str "#/definitions/X")])])]) =
      .ok ((.obj [], true), .obj [("properties", .null)]) :=
  rfl

/-- C4 amended: default extraction (`extract_JSON_schema_defaults.main`)
does not raise a `SchemaError` on an unresolvable `$ref`; whether the
missing key is at the first segment (no `definitions` at all) or at a later
segment (`definitions` present, `X` absent), the reference resolves to
`None`, the property contributes no default, and extraction returns an
empty default tree successfully — a silent empty result. -/
theorem claim4_unresolvable_ref_silent :
    extractDefaults 10 (.obj [("properties", .obj [("a", .obj [("$ref", .str "#/definitions/X")])])]) =
      .ok ((.obj [], true), .obj [("properties", .null)]) ∧
    extractDefaults 10 (.obj [("properties", .obj [("a", .obj [("$ref", .str "#/definitions/X")])]),
        ("definitions", .obj [("Y", .obj [("type", .str "integer"), ("default", .int 3)])])]) =
      .ok ((.obj [], true), .obj [("properties", .null),
        ("definitions", .obj [("Y", .obj [("type", .str "integer"), ("default", .int 3)])])]) :=
  ⟨rfl, rfl⟩

/-- C5 counterexample: the claim states that a property holding
`{"$ref": "#/definitions/X"}`, with `definitions.X` resolving, extracts the
same defaults as the schema with `definitions.X` textually inlined in the
property's place.  When `definitions.X` is itself a reference
(`{"$ref": "#/definitions/Y"}`), the `$ref` form stops after one resolution
step and treats the chained node as an untyped object (extracting `{}`),
while the inlined form resolves one level further and extracts `Y`'s
default `3`: the two default trees differ. -/
theorem claim5_counterexample_chained_ref :
    (extractDefaults 10 (.obj [("properties", .obj [("a", .obj [("$ref", .str "#/definitions/X")])]),
        ("definitions", .obj [("X", .obj [("$ref", .str "#/definitions/Y")]),
          ("Y", .obj [("type", .str "integer"), ("default", .int 3)])])])).map (fun r => r.1) =
      .ok (.obj [("a", .obj [])], true) ∧
    (extractDefaults 10 (.obj [("properties", .obj [("a", .obj [("$ref", .str "#/definitions/Y")])]),
        ("definitions", .obj [("X", .obj [("$ref", .str "#/definitions/Y")]),
          ("Y", .obj [("type", .str "integer"), ("default", .int 3)])])])).map (fun r => r.1) =
      .ok (.obj [("a", .int 3)], true) ∧
    (JValue.obj [("a", .obj [])]) ≠ (JValue.obj [("a", .int 3)]) :=
  ⟨rfl, rfl, by simp⟩

/-- C5 amended: for a schema whose `properties` object holds the single
property `"a"` with value `{"$ref": "#/definitions/X"}`, where
`definitions.X` resolves to a node `R` that is not itself a dict carrying a
string-valued `"$ref"` key (no chained reference), default extraction
produces exactly the same result as extraction from the schema with `R`
inlined in the property's place — at every recursion depth `f`. -/
theorem claim5_ref_inline_equivalence (f : Nat) (R : JValue) (D : List (String × JValue))
    (hD : D ≠ []) (hX : objGet D "X" = some R) (hR : chainedRef R = false) :
    extractDefaults f (.obj [("properties", .obj [("a", .obj [("$ref", .str "#/definitions/X")])]),
      ("definitions", .obj D)]) =
    extractDefaults f (.obj [("properties", .obj [("a", R)]), ("definitions", .obj D)]) := by
  obtain ⟨p, D2, rfl⟩ := List.exists_cons_of_ne_nil hD
  have hX2 : (if p.1 = "X" then some p.2 else objGet D2 "X") = some R := by
    simpa [objGet] using hX
  have hsplit : splitSlash "#/definitions/X" = ["#", "definitions", "X"] := rfl
  have hA : refTarget (.obj [("$ref", .str "#/definitions/X")])
      (.obj [("properties", .obj [("a", .obj [("$ref", .str "#/definitions/X")])]),
        ("definitions", .obj (p :: D2))]) = R := by
    simp [refTarget, hsplit, resolveRef, objGet, truthy, hX2]
  match f with
  | 0 => rfl
  | 1 => rfl
  | fuel + 2 =>
      simp [extractDefaults, extractDefaultsLoop, dictGetD, propGetD, objGet, objSet,
        truthy, hA, refTarget_eq_self hR]

/-- C5 witness: the amended equivalence applied to the referenced node
`R = {"type": "integer", "default": 3}` inside
`definitions = {"X": R}`, at fuel `10`. -/
theorem claim5_witness :
    (([("X", JValue.obj [("type", .str "integer"), ("default", .int 3)])] :
        List (String × JValue)) ≠ []) ∧
    objGet [("X", JValue.obj [("type", .str "integer"), ("default", .int 3)])] "X" =
      some (JValue.obj [("type", .str "integer"), ("default", .int 3)]) ∧
    chainedRef (JValue.obj [("type", .str "integer"), ("default", .int 3)]) = false ∧
    extractDefaults 10 (.obj [("properties", .obj [("a", .obj [("$ref", .str "#/definitions/X")])]),
        ("definitions", .obj [("X", .obj [("type", .str "integer"), ("default", .int 3)])])]) =
      extractDefaults 10 (.obj [("properties", .obj [("a", .obj [("type", .str "integer"),
          ("default", .int 3)])]),
        ("definitions", .obj [("X", .obj [("type", .str "integer"), ("default", .int 3)])])]) :=
  ⟨List.cons_ne_nil _ _, rfl, rfl,
    claim5_ref_inline_equivalence 10 _ _ (List.cons_ne_nil _ _) rfl rfl⟩

/-- C6: validating the empty object `{}` against a schema whose
`properties` declare the single property `"a"` with a sub-schema marking it
required yields exactly one `ValidationError`, with path `["a"]` (the
property name prepended to the error path) and validator `"required"`. -/
theorem claim6_required_property_error :
    validate 6 (.obj [("properties", .obj [("a", .obj [("required", .bool true)])])])
        (.obj []) (.obj [("properties", .obj [("a", .obj [("required", .bool true)])])]) =
      .ok [⟨"a is a required property.", [.s "a"], some "required"⟩] :=
  rfl

/-- C7: validating the number `5` against `{"maximum": 5}` yields no error
(the `exclusiveMaximum` modifier, read from the same schema node, defaults
to `false`, an inclusive bound), while against
`{"maximum": 5, "exclusiveMaximum": true}` it yields exactly one
`ValidationError` whose validator field is `"maximum"`. -/
theorem claim7_numeric_bounds :
    validate 6 (.obj [("maximum", .int 5)]) (.int 5) (.obj [("maximum", .int 5)]) = .ok [] ∧
    validate 6 (.obj [("maximum", .int 5), ("exclusiveMaximum", .bool true)]) (.int 5)
        (.obj [("maximum", .int 5), ("exclusiveMaximum", .bool true)]) =
      .ok [⟨"5 is greater than or equal to the maximum value of 5.", [], some "maximum"⟩] :=
  ⟨rfl, rfl⟩

/-- C8: the claim states that a keyword constraint applied to an instance of
an inapplicable JSON type yields no error and raises no exception.  A
string instance against `{"maximum": 5}` indeed passes silently, but a
BOOLEAN instance reaches `_is_type`'s `raise False` (since `bool` is a
subclass of `int`, the guard for the `number` type tuple fires), which in
Python is a `TypeError` — the validator raises instead of skipping. -/
theorem claim8_bool_instance_raises :
    validate 6 (.obj [("maximum", .int 5)]) (.bool true) (.obj [("maximum", .int 5)]) =
      .error .typeError ∧
    validate 6 (.obj [("maximum", .int 5)]) (.str "x") (.obj [("maximum", .int 5)]) = .ok [] :=
  ⟨rfl, rfl⟩

/-- C9: for an array of (hashable, here integer) elements validated against
`{"uniqueItems": true}`, the rule yields its "has non-unique elements"
`ValidationError` exactly when the elements are pairwise distinct
(`len(set(instance)) == len(instance)`), and yields no error when the array
contains a duplicate. -/
theorem claim9_uniqueItems_fires_on_distinct (xs : List Int) :
    validate 6 (.obj [("uniqueItems", .bool true)]) (.arr (xs.map JValue.int))
        (.obj [("uniqueItems", .bool true)]) =
      .ok (if xs.Nodup then
        [⟨pyStr (.arr (xs.map JValue.int)) ++ " has non-unique elements.", [], some "uniqueItems"⟩]
      else []) := by
  have h := pySetLen_map_int xs
  rw [validate_uniqueItems_eval (xs.map JValue.int) _ h, List.length_map]
  by_cases hnd : xs.Nodup
  · rw [if_pos ((distinct_len_iff_nodup xs).mpr hnd), if_pos hnd]
  · rw [if_neg fun hc => hnd ((distinct_len_iff_nodup xs).mp hc), if_neg hnd]

/-- C10: for any array instance validated against a schema whose `items`
key holds a single schema object, the items rule yields, for each element
of the array, exactly the errors of validating the items schema against
ITSELF as an instance (with the element's index prepended to each error
path); the element values are never inspected, so the result depends only
on the array's length.  Here the items schema
`{"properties": {"a": {"required": true}}}` fails against itself with one
`required` error, so each index contributes `[idx, "a"]`. -/
theorem claim10_items_self_validation (xs : List JValue) :
    validate 12 (.obj [("items", .obj [("properties", .obj [("a", .obj [("required", .bool true)])])])])
        (.arr xs)
        (.obj [("items", .obj [("properties", .obj [("a", .obj [("required", .bool true)])])])]) =
      .ok ((List.range xs.length).flatMap fun idx =>
        [⟨"a is a required property.", [.n idx, .s "a"], some "required"⟩]) := by
  cases xs with
  | nil => rfl
  | cons y ys =>
      show Except.ok
          ((((List.range (y :: ys).length).flatMap fun idx =>
              ([(⟨"a is a required property.", [.s "a"], some "required"⟩ : VError)].map
                (pathPrepend (.n idx)))).map
            (fun e => VError.mk e.message e.path
              (match e.validator with | some v => some v | none => some "items"))) ++ []) =
        Except.ok ((List.range (y :: ys).length).flatMap fun idx =>
          [(⟨"a is a required property.", [.n idx, .s "a"], some "required"⟩ : VError)])
      rw [List.append_nil, List.map_flatMap]
      rfl
